import Mathlib

/-!
Verification of the terminal raw-mode lifecycle of kilo.c
(build-your-own-text-editor, step "entering raw mode").

The C program manipulates a `struct termios` through four 32-bit flag
words (c_iflag, c_oflag, c_cflag, c_lflag), a control-character array
c_cc, and a few further fields that the program never touches.  We embed
the struct as a Lean structure over Nat (with the 32-bit width made
explicit where bit complements matter), the flag constants with their
Linux (asm-generic) values, and the program's control flow as an
executable function from an oracle of syscall results to an outcome
record.
-/

namespace Kilo

/-! ### Flag constants (Linux asm-generic termbits.h values) -/

def BRKINT : Nat := 0x002
def ICRNL  : Nat := 0x100
def INPCK  : Nat := 0x010
def ISTRIP : Nat := 0x020
def IXON   : Nat := 0x400
def OPOST  : Nat := 0x001
def CS8    : Nat := 0x030
def ECHO   : Nat := 0x008
def ICANON : Nat := 0x002
def IEXTEN : Nat := 0x8000
def ISIG   : Nat := 0x001
def VTIME  : Nat := 5
def VMIN   : Nat := 6

/-- All 32 bits of a tcflag_t word set; tcflag_t is a 32-bit unsigned int. -/
def flagMaskAll : Nat := 4294967295

/-- The C expression `w &= ~(m)` on a 32-bit tcflag_t word: keep exactly
the bits of `w` that are not in `m`. -/
def clearFlags (w m : Nat) : Nat := w &&& (flagMaskAll ^^^ m)

/-- Shallow embedding of `struct termios`.  The four flag words and the
c_cc array are the fields kilo.c manipulates; c_line, c_ispeed and
c_ospeed stand for the remaining platform fields, which the program
only ever copies around. -/
structure Termios where
  c_iflag : Nat
  c_oflag : Nat
  c_cflag : Nat
  c_lflag : Nat
  c_line : Nat
  c_cc : Nat → Nat
  c_ispeed : Nat
  c_ospeed : Nat

/-- Array store `a[i] = v` for the embedded c_cc array. -/
def setcc (f : Nat → Nat) (i v : Nat) : Nat → Nat :=
  fun j => if j = i then v else f j

/-- The raw configuration kilo.c derives from the captured original
(enableRawMode, lines 39-92): starting from a copy of orig_termios it
clears BRKINT, ICRNL, INPCK, ISTRIP, IXON in c_iflag; OPOST in c_oflag;
ors CS8 into c_cflag; clears ECHO, ICANON, IEXTEN, ISIG in c_lflag; and
sets c_cc[VMIN] = 0 and c_cc[VTIME] = 1.  Every other field is the
struct-copy of the original. -/
def deriveRaw (t : Termios) : Termios :=
  { t with
    c_iflag := clearFlags t.c_iflag (BRKINT ||| ICRNL ||| INPCK ||| ISTRIP ||| IXON)
    c_oflag := clearFlags t.c_oflag OPOST
    c_cflag := t.c_cflag ||| CS8
    c_lflag := clearFlags t.c_lflag (ECHO ||| ICANON ||| IEXTEN ||| ISIG)
    c_cc := setcc (setcc t.c_cc VMIN 0) VTIME 1 }

/-! ### Session state and the two terminal-mode functions

The C program keeps one global, `orig_termios` (line 7), next to the
actual terminal configuration owned by the OS.  `PState` packs the two;
the functions below are the successful-syscall effects of
enableRawMode and disableRawMode on it.  The failure branches (die)
are modelled in the whole-program function `run` further down. -/

structure PState where
  /-- The configuration the OS currently holds for the terminal. -/
  term : Termios
  /-- The global orig_termios (kilo.c line 7). -/
  orig : Termios

/-- Effect of one enableRawMode call (kilo.c lines 29-99) when both
syscalls succeed: tcgetattr copies the current terminal configuration
into the global orig_termios — unconditionally, there is no
already-captured check — and tcsetattr(TCSAFLUSH) installs the derived
raw configuration. -/
def enableRawMode (s : PState) : PState :=
  { term := deriveRaw s.term, orig := s.term }

/-- Effect of one disableRawMode call (kilo.c lines 14-18).  The Bool
argument is the tcsetattr result: on success the terminal becomes the
stored orig_termios, verbatim; on failure the terminal is unchanged and
the function dies (the returned flag is false exactly in that case). -/
def disableRawMode (ok : Bool) (s : PState) : PState × Bool :=
  if ok then ({ s with term := s.orig }, true) else (s, false)

/-! ### The input loop -/

/-- Result of one `read(STDIN_FILENO, &c, 1)` call under VMIN = 0,
VTIME = 1: `ok b` is a 1-byte read of b, `timeout` is a return of 0
with no data, `err` is a return of -1. -/
inductive ReadResult where
  | ok (b : Nat)
  | timeout
  | err
deriving DecidableEq

/-- Value of the local `c` after `char c = NUL; read(STDIN_FILENO, &c, 1)`
(kilo.c lines 105-106): the byte on a successful read; on timeout or
error the buffer is not written and c keeps its NUL initialiser. -/
def byteRead : ReadResult → Nat
  | .ok b => b
  | .timeout => 0
  | .err => 0

/-- C iscntrl on a byte value: 0-31 and 127. -/
def iscntrl (c : Nat) : Bool := c < 32 || c == 127

/-- One line printed by the loop body (kilo.c lines 108-112):
ctrl c for printf of the numeric value alone, printable c for the
numeric value together with the character. -/
inductive OutEvent where
  | ctrl (c : Nat)
  | printable (c : Nat)
deriving DecidableEq

/-- The output the loop body produces for byte value c. -/
def loopOut (c : Nat) : OutEvent :=
  if iscntrl c then .ctrl c else .printable c

/-- ASCII value of the quit key (kilo.c line 114 compares c against it). -/
def qByte : Nat := 113

/-- How a run of the while loop ends. -/
inductive LoopRes where
  /-- The break at kilo.c line 115: the byte read compared equal to the
  quit key. -/
  | quit
  /-- An externally delivered fatal termination signal killed the
  process mid-loop.  kilo.c installs no signal handler, so the default
  disposition applies. -/
  | killed
  /-- The modelled list of read results was exhausted with the loop
  still running. -/
  | pending
deriving DecidableEq

/-- The while loop of main (kilo.c lines 104-117) over a finite list of
read results.  The optional counter is an externally delivered fatal
signal: `some n` means the process is killed after n further loop
iterations.  Each iteration reads one byte (NUL on timeout or error),
prints it, and breaks exactly when it equals the quit key. -/
def runLoop : List ReadResult → Option Nat → List OutEvent × LoopRes
  | _, some 0 => ([], .killed)
  | [], _ => ([], .pending)
  | r :: rs, sig =>
      let c := byteRead r
      if c = qByte then ([loopOut c], .quit)
      else
        let p := runLoop rs (sig.map fun n => n - 1)
        (loopOut c :: p.1, p.2)

/-! ### The whole program -/

/-- The environment a run of the program executes against: the
terminal's configuration at program start, the success of each of the
three configuration syscalls the program can make, the results of the
successive read calls, and an optional externally delivered fatal
signal. -/
structure Oracle where
  term0 : Termios
  /-- Result of tcgetattr at kilo.c line 31. -/
  getattrOk : Bool
  /-- Result of tcsetattr(raw) at kilo.c line 96. -/
  setRawOk : Bool
  /-- Result of tcsetattr(orig_termios) at kilo.c line 15, inside
  disableRawMode. -/
  setOrigOk : Bool
  reads : List ReadResult
  signalAfter : Option Nat

/-- How the modelled process ends. -/
inductive ExitKind where
  /-- exit(code) or return from main; the C runtime has run the
  registered atexit handlers first. -/
  | exited (code : Nat)
  /-- Killed by a fatal signal with default disposition: the process
  terminates without running atexit handlers. -/
  | killed
  /-- The modelled input was exhausted with the process still running. -/
  | running
deriving DecidableEq

/-- Observable outcome of a program run. -/
structure Outcome where
  kind : ExitKind
  /-- The terminal configuration the OS holds at the end. -/
  term : Termios
  /-- Whether disableRawMode executed. -/
  restoreRan : Bool
  /-- The attributes disableRawMode passed to tcsetattr, when it ran. -/
  restoreApplied : Option Termios
  /-- The perror diagnostics written to stderr, in order. -/
  stderrMsgs : List String
  outs : List OutEvent

/-- Process exit via exit(code) or return from main, after
enableRawMode has registered disableRawMode with atexit (kilo.c line
35): the C runtime runs the handler, which applies the global
orig_termios — at this point the captured term0 — and on tcsetattr
failure dies with a diagnostic and exit code 1.  `term` is the
terminal configuration at the moment of the exit call. -/
def exitWithHandler (o : Oracle) (code : Nat) (errs : List String)
    (outs : List OutEvent) (term : Termios) : Outcome :=
  if o.setOrigOk then
    { kind := .exited code, term := o.term0, restoreRan := true,
      restoreApplied := some o.term0, stderrMsgs := errs, outs := outs }
  else
    { kind := .exited 1, term := term, restoreRan := true,
      restoreApplied := some o.term0,
      stderrMsgs := errs ++ ["tcsetattr"], outs := outs }

/-- Outcome of the program once the loop has finished, in the branch
where raw mode was successfully applied. -/
def afterLoop (o : Oracle) (res : List OutEvent × LoopRes) : Outcome :=
  match res.2 with
  | .quit => exitWithHandler o 0 [] res.1 (deriveRaw o.term0)
  | .killed =>
      { kind := .killed, term := deriveRaw o.term0, restoreRan := false,
        restoreApplied := none, stderrMsgs := [], outs := res.1 }
  | .pending =>
      { kind := .running, term := deriveRaw o.term0, restoreRan := false,
        restoreApplied := none, stderrMsgs := [], outs := res.1 }

/-- A run of main (kilo.c lines 101-120) against an oracle.

enableRawMode first calls tcgetattr; on failure it dies — perror then
exit(1) — before atexit(disableRawMode) is registered, so no restore
runs.  On success the handler is registered, the raw configuration is
derived and tcsetattr applies it; a failure there dies, and this time
exit(1) runs the handler.  Then the loop runs; reading the quit key
returns 0 from main (running the handler); a fatal signal kills the
process without the handler. -/
def run (o : Oracle) : Outcome :=
  if o.getattrOk = false then
    { kind := .exited 1, term := o.term0, restoreRan := false,
      restoreApplied := none, stderrMsgs := ["tcgetattr"], outs := [] }
  else if o.setRawOk = false then
    exitWithHandler o 1 ["tcsetattr"] [] o.term0
  else
    afterLoop o (runLoop o.reads o.signalAfter)

/-! ### Concrete instances used by witnesses and counterexamples -/

/-- A typical cooked-mode configuration: ICRNL and IXON on, OPOST on,
CS8, ECHO/ICANON/IEXTEN/ISIG on, VMIN = 1, VTIME = 0. -/
def cookedT : Termios :=
  { c_iflag := ICRNL ||| IXON
    c_oflag := OPOST
    c_cflag := CS8
    c_lflag := ECHO ||| ICANON ||| IEXTEN ||| ISIG
    c_line := 0
    c_cc := fun i => if i = VMIN then 1 else 0
    c_ispeed := 13
    c_ospeed := 13 }

/-- The zero-initialised global orig_termios before any capture. -/
def zeroT : Termios :=
  { c_iflag := 0, c_oflag := 0, c_cflag := 0, c_lflag := 0,
    c_line := 0, c_cc := fun _ => 0, c_ispeed := 0, c_ospeed := 0 }

/-- Initial process state: some cooked terminal, zeroed global. -/
def s0 : PState := { term := cookedT, orig := zeroT }

/-- Healthy run: every syscall succeeds, a timeout then the quit key. -/
def oQuit : Oracle :=
  { term0 := cookedT, getattrOk := true, setRawOk := true,
    setOrigOk := true, reads := [.timeout, .ok qByte], signalAfter := none }

/-- Run killed by an external fatal signal after one loop iteration. -/
def oSig : Oracle :=
  { term0 := cookedT, getattrOk := true, setRawOk := true,
    setOrigOk := true, reads := [.timeout, .timeout], signalAfter := some 1 }

/-- Run whose initial tcgetattr fails. -/
def oNoGet : Oracle :=
  { term0 := cookedT, getattrOk := false, setRawOk := true,
    setOrigOk := true, reads := [], signalAfter := none }

/-- Run where applying the raw configuration fails. -/
def oNoSetRaw : Oracle :=
  { term0 := cookedT, getattrOk := true, setRawOk := false,
    setOrigOk := true, reads := [], signalAfter := none }

/-- Run where the user quits but the restoring tcsetattr fails. -/
def oNoRestore : Oracle :=
  { term0 := cookedT, getattrOk := true, setRawOk := true,
    setOrigOk := false, reads := [.ok qByte], signalAfter := none }

/-- A configuration whose only set bit is BRKINT in c_iflag. -/
def brkT : Termios := { zeroT with c_iflag := BRKINT }

/-- Whether an ExitKind is a call of exit or a return from main, the
two termination forms on which the C runtime runs atexit handlers. -/
def isExitedKind : ExitKind → Bool
  | .exited _ => true
  | .killed => false
  | .running => false

/-! ### Bit-level helper lemmas -/

theorem clearFlags_testBit_false (x m b : Nat)
    (h : Nat.testBit (flagMaskAll ^^^ m) b = false) :
    (clearFlags x m).testBit b = false := by
  simp [clearFlags, Nat.testBit_land, h]

theorem clearFlags_keep (x m : Nat) :
    clearFlags x m &&& (flagMaskAll ^^^ m) = x &&& (flagMaskAll ^^^ m) := by
  apply Nat.eq_of_testBit_eq
  intro i
  simp [clearFlags, Nat.testBit_land, Bool.and_assoc]

theorem lor_testBit_true (x m b : Nat) (h : Nat.testBit m b = true) :
    (x ||| m).testBit b = true := by
  simp [Nat.testBit_lor, h]

theorem lor_keep (x m k : Nat) (h : m &&& k = 0) : (x ||| m) &&& k = x &&& k := by
  apply Nat.eq_of_testBit_eq
  intro i
  have hb : Nat.testBit (m &&& k) i = Nat.testBit 0 i := by rw [h]
  simp only [Nat.testBit_land, Nat.zero_testBit] at hb
  simp only [Nat.testBit_land, Nat.testBit_lor]
  cases hm : Nat.testBit m i <;> cases hk : Nat.testBit k i <;> simp_all

/-! ### C2: the derived raw configuration -/

/-- C2 (amended): for every input attribute snapshot A, the raw
configuration derived from A has echo (ECHO, lflag bit 3), canonical
buffering (ICANON, bit 1), signal generation (ISIG, bit 0), extended
input processing (IEXTEN, bit 15), software flow control (IXON, iflag
bit 10), CR-to-NL translation (ICRNL, bit 8), output post-processing
(OPOST, oflag bit 0), parity checking (INPCK, iflag bit 4), high-bit
stripping (ISTRIP, bit 5) and also break-condition interrupt (BRKINT,
iflag bit 1) disabled, character size set to 8 bits (both CSIZE bits of
c_cflag set), c_cc[VMIN] = 0 and c_cc[VTIME] = 1, with every other
field — every flag bit outside the cleared and set masks, every other
c_cc entry, and the remaining struct fields — carried over unchanged
from A. -/
theorem deriveRaw_raw_flags (A : Termios) (i : Nat)
    (h1 : i ≠ VMIN) (h2 : i ≠ VTIME) :
    (deriveRaw A).c_lflag.testBit 3 = false ∧
    (deriveRaw A).c_lflag.testBit 1 = false ∧
    (deriveRaw A).c_lflag.testBit 0 = false ∧
    (deriveRaw A).c_lflag.testBit 15 = false ∧
    (deriveRaw A).c_iflag.testBit 10 = false ∧
    (deriveRaw A).c_iflag.testBit 8 = false ∧
    (deriveRaw A).c_oflag.testBit 0 = false ∧
    (deriveRaw A).c_iflag.testBit 4 = false ∧
    (deriveRaw A).c_iflag.testBit 5 = false ∧
    (deriveRaw A).c_iflag.testBit 1 = false ∧
    (deriveRaw A).c_cflag.testBit 4 = true ∧
    (deriveRaw A).c_cflag.testBit 5 = true ∧
    (deriveRaw A).c_cc VMIN = 0 ∧
    (deriveRaw A).c_cc VTIME = 1 ∧
    (deriveRaw A).c_cc i = A.c_cc i ∧
    (deriveRaw A).c_iflag &&& (flagMaskAll ^^^ (BRKINT ||| ICRNL ||| INPCK ||| ISTRIP ||| IXON))
      = A.c_iflag &&& (flagMaskAll ^^^ (BRKINT ||| ICRNL ||| INPCK ||| ISTRIP ||| IXON)) ∧
    (deriveRaw A).c_oflag &&& (flagMaskAll ^^^ OPOST)
      = A.c_oflag &&& (flagMaskAll ^^^ OPOST) ∧
    (deriveRaw A).c_lflag &&& (flagMaskAll ^^^ (ECHO ||| ICANON ||| IEXTEN ||| ISIG))
      = A.c_lflag &&& (flagMaskAll ^^^ (ECHO ||| ICANON ||| IEXTEN ||| ISIG)) ∧
    (deriveRaw A).c_cflag &&& (flagMaskAll ^^^ CS8)
      = A.c_cflag &&& (flagMaskAll ^^^ CS8) ∧
    (deriveRaw A).c_line = A.c_line ∧
    (deriveRaw A).c_ispeed = A.c_ispeed ∧
    (deriveRaw A).c_ospeed = A.c_ospeed := by
  refine ⟨clearFlags_testBit_false _ _ _ (by decide),
    clearFlags_testBit_false _ _ _ (by decide),
    clearFlags_testBit_false _ _ _ (by decide),
    clearFlags_testBit_false _ _ _ (by decide),
    clearFlags_testBit_false _ _ _ (by decide),
    clearFlags_testBit_false _ _ _ (by decide),
    clearFlags_testBit_false _ _ _ (by decide),
    clearFlags_testBit_false _ _ _ (by decide),
    clearFlags_testBit_false _ _ _ (by decide),
    clearFlags_testBit_false _ _ _ (by decide),
    lor_testBit_true _ _ _ (by decide),
    lor_testBit_true _ _ _ (by decide),
    rfl, rfl, ?_,
    clearFlags_keep _ _, clearFlags_keep _ _, clearFlags_keep _ _,
    lor_keep _ _ _ (by decide), rfl, rfl, rfl⟩
  simp [deriveRaw, setcc, VMIN, VTIME] at h1 h2 ⊢
  simp [h1, h2]

/-- Witness for deriveRaw_raw_flags at a concrete cooked configuration
and c_cc index 0. -/
theorem deriveRaw_raw_flags_witness :
    (deriveRaw cookedT).c_cc 0 = cookedT.c_cc 0 :=
  (deriveRaw_raw_flags cookedT 0 (by decide) (by decide)).2.2.2.2.2.2.2.2.2.2.2.2.2.2.1

/-- C2 counterexample: BRKINT (break-condition interrupt, c_iflag bit 1)
is not among the fields the claim lists as disabled, yet it is not
carried over unchanged: on a snapshot whose only set bit is BRKINT the
derived configuration clears it. -/
theorem deriveRaw_changes_brkint_cex :
    Nat.testBit brkT.c_iflag 1 = true ∧
    Nat.testBit (deriveRaw brkT).c_iflag 1 = false := by
  decide

/-! ### C5: when the original configuration is captured -/

/-- C5 (amended): each enableRawMode call captures unconditionally —
tcgetattr stores the current terminal configuration into the global
orig_termios with no already-captured guard.  main calls enableRawMode
exactly once, so within a program run the stored original is the single
snapshot taken by that call; a second call in the same session would
overwrite the stored original with the raw configuration derived by the
first call. -/
theorem enableRawMode_capture (s : PState) :
    (enableRawMode s).orig = s.term ∧
    (enableRawMode (enableRawMode s)).orig = deriveRaw s.term :=
  ⟨rfl, rfl⟩

/-- C5 counterexample: starting from a cooked terminal whose c_lflag is
32779 (ECHO, ICANON, IEXTEN, ISIG), the first enableRawMode stores that
value in orig_termios, but a second call overwrites it with 0 — the
stored original does not remain the first capture across a sequence of
enter-raw calls. -/
theorem second_enableRawMode_overwrites_cex :
    (enableRawMode s0).orig.c_lflag = 32779 ∧
    (enableRawMode (enableRawMode s0)).orig.c_lflag = 0 ∧
    (enableRawMode (enableRawMode s0)).orig.c_lflag ≠
      (enableRawMode s0).orig.c_lflag := by
  decide

/-! ### C8: read results in the loop body -/

/-- C8 (amended): a successful one-byte read yields that byte; on a
timeout the buffer keeps its NUL initialiser, so the loop sees byte 0;
a genuine read error is handled identically — the return value of read
is ignored, the byte also stays 0, and no distinct failure is reported:
the loop behaves exactly as on a timeout. -/
theorem read_error_like_timeout (b : Nat) (rs : List ReadResult) :
    byteRead (ReadResult.ok b) = b ∧
    byteRead ReadResult.timeout = 0 ∧
    byteRead ReadResult.err = 0 ∧
    runLoop (ReadResult.err :: rs) none = runLoop (ReadResult.timeout :: rs) none :=
  ⟨rfl, rfl, rfl, rfl⟩

/-- C8 counterexample: on a genuine I/O error the loop produces exactly
the observable of a timeout — it prints the control value 0 and keeps
running — rather than reporting a distinct failure. -/
theorem read_error_indistinct_cex :
    runLoop [ReadResult.err] none = ([OutEvent.ctrl 0], LoopRes.pending) ∧
    runLoop [ReadResult.err] none = runLoop [ReadResult.timeout] none := by
  decide

/-! ### C10: loop termination condition -/

theorem runLoop_quit_iff (rs : List ReadResult) :
    ((runLoop rs none).2 = LoopRes.quit) ↔ ∃ r ∈ rs, byteRead r = qByte := by
  induction rs with
  | nil => simp [runLoop]
  | cons r rs ih =>
    by_cases h : byteRead r = qByte
    · simp [runLoop, h]
    · simp [runLoop, h, ih]

/-- C10: absent an external signal, the input loop terminates exactly
when some read yields the quit byte 113; a read whose byte is not the
quit byte — in particular a timeout, end-of-file, or read error, which
all leave the buffer byte at NUL 0, printed through the control branch
— makes the loop print its value and continue with the remaining
reads. -/
theorem loop_quits_only_on_q (rs rs' : List ReadResult) (r : ReadResult)
    (h : byteRead r ≠ qByte) :
    (((runLoop rs none).2 = LoopRes.quit) ↔ ∃ x ∈ rs, byteRead x = qByte) ∧
    runLoop (r :: rs') none =
      (loopOut (byteRead r) :: (runLoop rs' none).1, (runLoop rs' none).2) ∧
    loopOut 0 = OutEvent.ctrl 0 ∧
    byteRead ReadResult.timeout = 0 ∧
    byteRead ReadResult.err = 0 := by
  refine ⟨runLoop_quit_iff rs, ?_, rfl, rfl, rfl⟩
  simp [runLoop, h]

/-- Witness for loop_quits_only_on_q: a run whose only read is the quit
byte terminates the loop. -/
theorem loop_quits_only_on_q_witness :
    ((runLoop [ReadResult.ok qByte] none).2 = LoopRes.quit) ↔
      ∃ x ∈ [ReadResult.ok qByte], byteRead x = qByte :=
  (loop_quits_only_on_q [ReadResult.ok qByte] [] ReadResult.timeout (by decide)).1

/-! ### C1: when the restore runs -/

/-- C1 (amended): once the initial capture has succeeded — which is the
moment atexit(disableRawMode) is registered, before the raw
configuration is applied — restore has run before process exit on every
termination by exit or return from main, normal or error; but on a
fatal termination signal the process is killed without running the
atexit handler, since the program installs no signal handler. -/
theorem restore_runs_iff_exited (o : Oracle) (h : o.getattrOk = true) :
    (run o).restoreRan = isExitedKind (run o).kind := by
  cases hs : o.setRawOk with
  | false =>
    cases ho : o.setOrigOk <;> simp [run, h, hs, exitWithHandler, ho, isExitedKind]
  | true =>
    rcases hres : runLoop o.reads o.signalAfter with ⟨os, lr⟩
    cases lr with
    | quit =>
      cases ho : o.setOrigOk <;>
        simp [run, h, hs, hres, afterLoop, exitWithHandler, ho, isExitedKind]
    | killed => simp [run, h, hs, hres, afterLoop, isExitedKind]
    | pending => simp [run, h, hs, hres, afterLoop, isExitedKind]

/-- Witness for restore_runs_iff_exited at the healthy quit run. -/
theorem restore_runs_iff_exited_witness :
    (run oQuit).restoreRan = isExitedKind (run oQuit).kind :=
  restore_runs_iff_exited oQuit rfl

/-- C1 counterexample: in a run where enableRawMode fully succeeded and
an external fatal signal arrives after one loop iteration, the process
terminates with the restore never having run. -/
theorem signal_skips_restore_cex :
    (run oSig).kind = ExitKind.killed ∧ (run oSig).restoreRan = false := by
  decide

/-! ### C3: round trip through raw mode -/

/-- C3: for every captured snapshot, whenever the restoring tcsetattr
succeeds and the restore has run, the terminal configuration at exit is
observably identical to the originally captured one — a capture after
restore would return exactly it — and what the restore applied is the
stored original verbatim, never a recomputed value. -/
theorem restore_roundtrip (o : Oracle) (h1 : o.setOrigOk = true)
    (h2 : (run o).restoreRan = true) :
    (run o).term = o.term0 ∧ (run o).restoreApplied = some o.term0 := by
  cases hg : o.getattrOk with
  | false => simp [run, hg] at h2
  | true =>
    cases hs : o.setRawOk with
    | false => simp [run, hg, hs, exitWithHandler, h1]
    | true =>
      rcases hres : runLoop o.reads o.signalAfter with ⟨os, lr⟩
      cases lr with
      | quit => simp [run, hg, hs, hres, afterLoop, exitWithHandler, h1]
      | killed => simp [run, hg, hs, hres, afterLoop] at h2
      | pending => simp [run, hg, hs, hres, afterLoop] at h2

/-- Witness for restore_roundtrip at the healthy quit run. -/
theorem restore_roundtrip_witness :
    (run oQuit).term = oQuit.term0 ∧
    (run oQuit).restoreApplied = some oQuit.term0 :=
  restore_roundtrip oQuit rfl (by decide)

/-! ### C4: idempotence and safety of the restore -/

/-- C4: a second successful disableRawMode call right after a first one
leaves the session state — in particular the terminal configuration —
exactly as the first call left it, since each call applies the stored
orig_termios verbatim; and on the exit path reached before any capture
(tcgetattr failed, so the atexit handler was never registered) the
process exits without attempting a restore, so exiting with nothing to
restore raises no error. -/
theorem restore_idempotent (s : PState) (o : Oracle) (h : o.getattrOk = false) :
    disableRawMode true ((disableRawMode true s).1) = disableRawMode true s ∧
    (run o).restoreRan = false ∧ (run o).kind = ExitKind.exited 1 := by
  refine ⟨rfl, ?_, ?_⟩ <;> simp [run, h]

/-- Witness for restore_idempotent at the failed-capture run. -/
theorem restore_idempotent_witness :
    (run oNoGet).restoreRan = false ∧ (run oNoGet).kind = ExitKind.exited 1 :=
  ⟨(restore_idempotent s0 oNoGet rfl).2.1, (restore_idempotent s0 oNoGet rfl).2.2⟩

/-! ### C6: exit codes -/

/-- C6: the process exits with code 1 when the capture fails, writing
the tcgetattr diagnostic to stderr before exiting and never entering
the loop; it exits with code 1 when applying the raw configuration
fails, with a tcsetattr diagnostic on stderr and the loop never entered
— any failure during raw-mode entry is immediately fatal and aborts
startup; and it exits with code 0 when the loop observes the quit key
and the restore succeeds. -/
theorem exit_codes (o : Oracle) :
    (o.getattrOk = false →
      (run o).kind = ExitKind.exited 1 ∧
      (run o).stderrMsgs = ["tcgetattr"] ∧ (run o).outs = []) ∧
    (o.getattrOk = true → o.setRawOk = false →
      (run o).kind = ExitKind.exited 1 ∧
      "tcsetattr" ∈ (run o).stderrMsgs ∧ (run o).outs = []) ∧
    (o.getattrOk = true → o.setRawOk = true → o.setOrigOk = true →
      (runLoop o.reads o.signalAfter).2 = LoopRes.quit →
      (run o).kind = ExitKind.exited 0) := by
  refine ⟨?_, ?_, ?_⟩
  · intro hg
    simp [run, hg]
  · intro hg hs
    cases ho : o.setOrigOk <;> simp [run, hg, hs, exitWithHandler, ho]
  · intro hg hs ho hq
    rcases hres : runLoop o.reads o.signalAfter with ⟨os, lr⟩
    rw [hres] at hq
    have hlr : lr = LoopRes.quit := hq
    subst hlr
    simp [run, hg, hs, hres, afterLoop, exitWithHandler, ho]

/-- Witness for exit_codes: the failed-capture run exits 1, the healthy
quit run exits 0. -/
theorem exit_codes_witness :
    (run oNoGet).kind = ExitKind.exited 1 ∧
    (run oQuit).kind = ExitKind.exited 0 :=
  ⟨((exit_codes oNoGet).1 rfl).1, (exit_codes oQuit).2.2 rfl rfl rfl (by decide)⟩

/-! ### C7: a failing restore still terminates -/

/-- C7: when the restore's tcsetattr fails on the quit path, the
failure is surfaced loudly — the tcsetattr diagnostic is written to
stderr — and the process still proceeds to exit (with code 1) rather
than hang: the restore ran and its failure did not prevent process
termination. -/
theorem restore_failure_still_exits (o : Oracle) (h1 : o.getattrOk = true)
    (h2 : o.setRawOk = true) (h3 : o.setOrigOk = false)
    (h4 : (runLoop o.reads o.signalAfter).2 = LoopRes.quit) :
    (run o).kind = ExitKind.exited 1 ∧ (run o).restoreRan = true ∧
    "tcsetattr" ∈ (run o).stderrMsgs := by
  rcases hres : runLoop o.reads o.signalAfter with ⟨os, lr⟩
  rw [hres] at h4
  have hlr : lr = LoopRes.quit := h4
  subst hlr
  simp [run, h1, h2, h3, hres, afterLoop, exitWithHandler]

/-- Witness for restore_failure_still_exits at the failing-restore
run. -/
theorem restore_failure_still_exits_witness :
    (run oNoRestore).kind = ExitKind.exited 1 ∧
    (run oNoRestore).restoreRan = true ∧
    "tcsetattr" ∈ (run oNoRestore).stderrMsgs :=
  restore_failure_still_exits oNoRestore rfl rfl rfl (by decide)

/-! ### C9: what the restore applies -/

/-- C9: on every exit path on which the restore runs — including the
path where applying the raw configuration itself fails — the capture
had succeeded (the handler is registered only after it, and before the
raw configuration is applied), and the restore applied exactly the
previously captured original configuration, never an uninitialized or
raw snapshot. -/
theorem restore_applies_captured_original (o : Oracle)
    (h : (run o).restoreRan = true) :
    o.getattrOk = true ∧ (run o).restoreApplied = some o.term0 := by
  cases hg : o.getattrOk with
  | false => simp [run, hg] at h
  | true =>
    refine ⟨rfl, ?_⟩
    cases hs : o.setRawOk with
    | false =>
      cases ho : o.setOrigOk <;> simp [run, hg, hs, exitWithHandler, ho]
    | true =>
      rcases hres : runLoop o.reads o.signalAfter with ⟨os, lr⟩
      cases lr with
      | quit =>
        cases ho : o.setOrigOk <;>
          simp [run, hg, hs, hres, afterLoop, exitWithHandler, ho]
      | killed => simp [run, hg, hs, hres, afterLoop] at h
      | pending => simp [run, hg, hs, hres, afterLoop] at h

/-- Witness for restore_applies_captured_original at the run whose raw
tcsetattr fails: even there the restore applied the captured
original. -/
theorem restore_applies_captured_original_witness :
    oNoSetRaw.getattrOk = true ∧
    (run oNoSetRaw).restoreApplied = some oNoSetRaw.term0 :=
  restore_applies_captured_original oNoSetRaw (by decide)

end Kilo
